import Mathlib

/-!
Verification of the swap-orchestration and transport-selection core of the
Uniswap interface repository.

The development shallowly embeds two source files:

* `apps/web/src/hooks/useSwapCallback.tsx` — the swap orchestrator
  (`useSwapCallback` / `submitSwap`), fee-field derivation
  (`getUniversalRouterFeeFields`), status lookup (`useSwapTransactionStatus`)
  and the viem-client-to-ethers-provider bridge (`clientToProvider`).
* the wagmi configuration file — transport resolution (`orderedTransportUrls`),
  chain-client construction (`createWagmiConfig`'s per-chain `client` closure)
  and response classification (`defaultOnFetchResponse`).

Effectful TypeScript is embedded as pure functions returning an explicit,
chronologically ordered event trace; JavaScript `throw` becomes `Except`;
`undefined`-able values become `Option`.
-/

namespace Spec2Proof

/-! ### Transport resolver (`orderedTransportUrls`) -/

/-- First-occurrence deduplication: the order-preserving semantics of
JavaScript `Array.from(new Set(xs))` — each element is kept at its first
occurrence, later duplicates are dropped. -/
def dedupFirst {α : Type} [DecidableEq α] : List α → List α
  | [] => []
  | x :: xs => x :: dedupFirst (xs.filter (fun y => y ≠ x))
termination_by l => l.length
decreasing_by
  simp only [List.length_cons]
  exact Nat.lt_succ_of_le (List.length_filter_le _ _)

/-- The four optional URL tiers of a chain's `rpcUrls` metadata; each carries
its `http` list when present. -/
structure RpcUrls where
  interface : Option (List String)
  default : Option (List String)
  public : Option (List String)
  fallback : Option (List String)

/-- The part of chain metadata (`getChainInfo` output / viem `Chain`) that the
embedded functions consult. -/
structure ChainInfo where
  id : Nat
  name : String
  rpcUrls : RpcUrls

/-- The raw tier concatenation built inside `orderedTransportUrls`:
interface, then default, then public, then fallback, each `?? []`. -/
def orderedRpcUrls (chain : ChainInfo) : List String :=
  chain.rpcUrls.interface.getD [] ++ chain.rpcUrls.default.getD [] ++
    chain.rpcUrls.public.getD [] ++ chain.rpcUrls.fallback.getD []

/-- `orderedTransportUrls`: concatenate the four tiers in priority order,
drop falsy (empty) strings (`.filter(Boolean)`), and deduplicate keeping
first occurrences (`Array.from(new Set(...))`). -/
def orderedTransportUrls (chain : ChainInfo) : List String :=
  dedupFirst ((orderedRpcUrls chain).filter (fun s => !s.isEmpty))

theorem dedupFirst_nil {α : Type} [DecidableEq α] : dedupFirst ([] : List α) = [] := by
  simp [dedupFirst]

theorem dedupFirst_cons {α : Type} [DecidableEq α] (x : α) (xs : List α) :
    dedupFirst (x :: xs) = x :: dedupFirst (xs.filter (fun y => y ≠ x)) := by
  simp [dedupFirst]

theorem mem_dedupFirst {α : Type} [DecidableEq α] (a : α) (l : List α) :
    a ∈ dedupFirst l ↔ a ∈ l := by
  induction l using dedupFirst.induct with
  | case1 => simp [dedupFirst_nil]
  | case2 x xs ih =>
    rw [dedupFirst_cons]
    by_cases hax : a = x
    · subst hax; simp
    · simp only [List.mem_cons, ih, List.mem_filter]
      constructor
      · rintro (h | ⟨h, -⟩)
        · exact Or.inl h
        · exact Or.inr h
      · rintro (h | h)
        · exact Or.inl h
        · exact Or.inr ⟨h, by simpa using hax⟩

theorem dedupFirst_nodup {α : Type} [DecidableEq α] (l : List α) :
    (dedupFirst l).Nodup := by
  induction l using dedupFirst.induct with
  | case1 => simp [dedupFirst_nil]
  | case2 x xs ih =>
    rw [dedupFirst_cons]
    refine List.nodup_cons.mpr ⟨?_, ih⟩
    intro hx
    have := (mem_dedupFirst x _).mp hx
    have := List.mem_filter.mp this
    simp at this

theorem dedupFirst_sublist {α : Type} [DecidableEq α] (l : List α) :
    (dedupFirst l).Sublist l := by
  induction l using dedupFirst.induct with
  | case1 => simp [dedupFirst_nil]
  | case2 x xs ih =>
    rw [dedupFirst_cons]
    exact (ih.trans (List.filter_sublist xs)).cons₂ x

/-- Splitting first-occurrence deduplication across an append: the left part
is deduplicated first, and only right-part elements absent from the left part
survive, after it. -/
theorem dedupFirst_append {α : Type} [DecidableEq α] (l₁ l₂ : List α) :
    dedupFirst (l₁ ++ l₂) =
      dedupFirst l₁ ++ dedupFirst (l₂.filter (fun y => y ∉ l₁)) := by
  induction l₁ using dedupFirst.induct generalizing l₂ with
  | case1 => simp [dedupFirst_nil]
  | case2 x xs ih =>
    rw [List.cons_append, dedupFirst_cons, dedupFirst_cons, List.filter_append,
      ih (l₂.filter (fun y => y ≠ x)), List.filter_filter, List.cons_append]
    congr 2
    congr 1
    apply List.filter_congr
    intro y _
    by_cases hyx : y = x <;> simp [hyx, List.mem_filter]

/-- First-occurrence deduplication of a four-part concatenation, split into
one segment per part: each later part keeps only what no earlier part
contains. -/
theorem dedupFirst_append4 {α : Type} [DecidableEq α] (a b c d : List α) :
    dedupFirst (a ++ b ++ c ++ d) =
      dedupFirst a ++ dedupFirst (b.filter (fun y => y ∉ a))
        ++ dedupFirst (c.filter (fun y => y ∉ a ++ b))
        ++ dedupFirst (d.filter (fun y => y ∉ a ++ b ++ c)) := by
  rw [dedupFirst_append (a ++ b ++ c) d, dedupFirst_append (a ++ b) c,
    dedupFirst_append a b]

/-- The interface tier with falsy entries removed. -/
def interfaceTier (c : ChainInfo) : List String :=
  (c.rpcUrls.interface.getD []).filter (fun s => !s.isEmpty)

/-- The default tier with falsy entries removed. -/
def defaultTier (c : ChainInfo) : List String :=
  (c.rpcUrls.default.getD []).filter (fun s => !s.isEmpty)

/-- The public tier with falsy entries removed. -/
def publicTier (c : ChainInfo) : List String :=
  (c.rpcUrls.public.getD []).filter (fun s => !s.isEmpty)

/-- The fallback tier with falsy entries removed. -/
def fallbackTier (c : ChainInfo) : List String :=
  (c.rpcUrls.fallback.getD []).filter (fun s => !s.isEmpty)

/-- C6: for every chain-metadata input, `orderedTransportUrls` returns a
single list with no duplicate URLs, containing exactly the non-falsy URLs of
the four tiers; it is a sublist of the falsy-filtered tier concatenation (so
each duplicate is collapsed to its first occurrence and relative source order
is never permuted); it decomposes into four consecutive segments, one per
tier in priority order interface, default, public, fallback — so no URL from
a later tier ever precedes a URL of an earlier tier — and each segment
preserves the source order of its own tier. -/
theorem orderedTransportUrls_spec (c : ChainInfo) :
    (orderedTransportUrls c).Nodup
    ∧ (∀ u, u ∈ orderedTransportUrls c ↔ (u ∈ orderedRpcUrls c ∧ u ≠ ""))
    ∧ (orderedTransportUrls c).Sublist
        ((orderedRpcUrls c).filter (fun s => !s.isEmpty))
    ∧ orderedTransportUrls c =
        dedupFirst (interfaceTier c)
          ++ dedupFirst ((defaultTier c).filter (fun y => y ∉ interfaceTier c))
          ++ dedupFirst ((publicTier c).filter
              (fun y => y ∉ interfaceTier c ++ defaultTier c))
          ++ dedupFirst ((fallbackTier c).filter
              (fun y => y ∉ interfaceTier c ++ defaultTier c ++ publicTier c))
    ∧ (dedupFirst (interfaceTier c)).Sublist (c.rpcUrls.interface.getD [])
    ∧ (dedupFirst ((defaultTier c).filter
        (fun y => y ∉ interfaceTier c))).Sublist (c.rpcUrls.default.getD [])
    ∧ (dedupFirst ((publicTier c).filter
        (fun y => y ∉ interfaceTier c ++ defaultTier c))).Sublist
          (c.rpcUrls.public.getD [])
    ∧ (dedupFirst ((fallbackTier c).filter
        (fun y => y ∉ interfaceTier c ++ defaultTier c ++ publicTier c))).Sublist
          (c.rpcUrls.fallback.getD []) := by
  refine ⟨dedupFirst_nodup _, ?_, dedupFirst_sublist _, ?_, ?_, ?_, ?_, ?_⟩
  · intro u
    rw [orderedTransportUrls, mem_dedupFirst, List.mem_filter]
    simp only [Bool.not_eq_true', and_congr_right_iff]
    intro _
    rw [Bool.eq_false_iff]
    exact not_congr (String.isEmpty_iff u)
  · rw [orderedTransportUrls, orderedRpcUrls, List.filter_append,
      List.filter_append, List.filter_append]
    exact dedupFirst_append4 _ _ _ _
  · exact (dedupFirst_sublist _).trans (List.filter_sublist _)
  · exact (dedupFirst_sublist _).trans
      ((List.filter_sublist _).trans (List.filter_sublist _))
  · exact (dedupFirst_sublist _).trans
      ((List.filter_sublist _).trans (List.filter_sublist _))
  · exact (dedupFirst_sublist _).trans
      ((List.filter_sublist _).trans (List.filter_sublist _))

/-! ### Trade data model -/

/-- `TradeType` from `@uniswap/sdk-core`. -/
inductive TradeType where
  | EXACT_INPUT
  | EXACT_OUTPUT
deriving DecidableEq

/-- The closed set of trade variants distinguished by `isClassicTrade`,
`isUniswapXTrade` and `isLimitTrade`: classic router trades, UniswapX dutch
orders (two generations), and limit orders (a UniswapX sub-variant). -/
inductive TradeVariant where
  | classic
  | dutch
  | dutchV2
  | limit
deriving DecidableEq

/-- A percentage expressed as an exact fraction `num / den` (the SDK's
`Percent`). -/
structure Percent where
  num : Nat
  den : Nat
deriving DecidableEq

/-- A currency amount: the currency identifier together with the raw integer
quotient. -/
structure CurrencyAmount where
  currency : String
  quotient : Nat
deriving DecidableEq

/-- The optional `swapFee` carried by a classic trade: a percentage, a raw
absolute amount, and the fee recipient. -/
structure SwapFee where
  percent : Percent
  amount : Nat
  recipient : String
deriving DecidableEq

/-- The fields of `InterfaceTrade` consumed by the embedded code. -/
structure Trade where
  variant : TradeVariant
  tradeType : TradeType
  inputAmount : CurrencyAmount
  outputAmount : CurrencyAmount
  swapFee : Option SwapFee
deriving DecidableEq

/-- `isClassicTrade` over a possibly-absent trade. -/
def isClassicTrade : Option Trade → Bool
  | none => false
  | some t => match t.variant with
    | .classic => true
    | _ => false

/-- `isUniswapXTrade`: every non-classic variant (dutch orders of either
generation and limit orders). -/
def isUniswapXTrade : Option Trade → Bool
  | none => false
  | some t => match t.variant with
    | .classic => false
    | _ => true

/-- `isLimitTrade`. -/
def isLimitTrade : Option Trade → Bool
  | none => false
  | some t => match t.variant with
    | .limit => true
    | _ => false

/-! ### Fee descriptor derivation (`getUniversalRouterFeeFields`) -/

/-- `FeeOptions` from `@uniswap/v3-sdk`: a percentage fee with recipient. -/
structure FeeOptions where
  fee : Percent
  recipient : String
deriving DecidableEq

/-- `FlatFeeOptions` from `@uniswap/universal-router-sdk`: an absolute fee
amount with recipient. -/
structure FlatFeeOptions where
  amount : Nat
  recipient : String
deriving DecidableEq

/-- `UniversalRouterFeeField`: either a percentage-fee shape or a flat-fee
shape — a tagged union, so a value is never both. -/
inductive UniversalRouterFeeField where
  | feeOptions (options : FeeOptions)
  | flatFeeOptions (options : FlatFeeOptions)
deriving DecidableEq

/-- `getUniversalRouterFeeFields`: no descriptor for non-classic or fee-less
trades; a percentage-fee shape for `EXACT_INPUT`, a flat-fee shape for
`EXACT_OUTPUT`. -/
def getUniversalRouterFeeFields (trade : Option Trade) :
    Option UniversalRouterFeeField :=
  if !isClassicTrade trade then none
  else
    match trade with
    | none => none
    | some t =>
      match t.swapFee with
      | none => none
      | some fee =>
        if t.tradeType = TradeType.EXACT_INPUT then
          some (.feeOptions ⟨fee.percent, fee.recipient⟩)
        else
          some (.flatFeeOptions ⟨fee.amount, fee.recipient⟩)

/-- C5: the fee-descriptor derivation returns no descriptor for non-classic
or fee-less trades; for a classic `EXACT_INPUT` trade with a fee it returns
exactly the percentage-fee descriptor (fee percentage and recipient); for a
classic `EXACT_OUTPUT` trade with a fee, exactly the flat-amount descriptor
(raw amount and recipient); and the two shapes are mutually exclusive. -/
theorem getUniversalRouterFeeFields_spec :
    (∀ trade, isClassicTrade trade = false →
      getUniversalRouterFeeFields trade = none)
    ∧ (∀ t : Trade, t.variant = TradeVariant.classic → t.swapFee = none →
      getUniversalRouterFeeFields (some t) = none)
    ∧ (∀ (t : Trade) (fee : SwapFee), t.variant = TradeVariant.classic →
      t.swapFee = some fee → t.tradeType = TradeType.EXACT_INPUT →
      getUniversalRouterFeeFields (some t) =
        some (.feeOptions ⟨fee.percent, fee.recipient⟩))
    ∧ (∀ (t : Trade) (fee : SwapFee), t.variant = TradeVariant.classic →
      t.swapFee = some fee → t.tradeType = TradeType.EXACT_OUTPUT →
      getUniversalRouterFeeFields (some t) =
        some (.flatFeeOptions ⟨fee.amount, fee.recipient⟩))
    ∧ (∀ trade p q, getUniversalRouterFeeFields trade =
        some (.feeOptions p) →
      getUniversalRouterFeeFields trade ≠ some (.flatFeeOptions q)) := by
  refine ⟨?_, ?_, ?_, ?_, ?_⟩
  · intro trade h
    simp [getUniversalRouterFeeFields, h]
  · intro t hv hf
    simp [getUniversalRouterFeeFields, isClassicTrade, hv, hf]
  · intro t fee hv hf ht
    simp [getUniversalRouterFeeFields, isClassicTrade, hv, hf, ht]
  · intro t fee hv hf ht
    simp [getUniversalRouterFeeFields, isClassicTrade, hv, hf, ht]
  · intro trade p q h1 h2
    rw [h1] at h2
    exact absurd (Option.some.inj h2) (by simp)

/-- Witness for C5: a concrete classic `EXACT_OUTPUT` trade with a fee gets
the flat-amount shape with the fee's raw amount. -/
theorem getUniversalRouterFeeFields_spec_witness :
    getUniversalRouterFeeFields
        (some ⟨.classic, .EXACT_OUTPUT, ⟨"ETH", 1000⟩, ⟨"USDC", 500⟩,
          some ⟨⟨1, 100⟩, 7, "feeRecipient"⟩⟩) =
      some (.flatFeeOptions ⟨7, "feeRecipient"⟩) :=
  getUniversalRouterFeeFields_spec.2.2.2.1 _ _ rfl rfl rfl

/-! ### Submission results and recorded transactions -/

/-- `TradeFillType` from `state/routing/types`. -/
inductive TradeFillType where
  | Classic
  | UniswapX
  | UniswapXv2
deriving DecidableEq

/-- The provider response of a classic submission: carries the transaction
hash. -/
structure ClassicSwapResponse where
  hash : String
deriving DecidableEq

/-- The response of an off-chain (UniswapX) submission: order hash, encoded
order payload and deadline. -/
structure UniswapXSwapResponse where
  orderHash : String
  encodedOrder : String
  deadline : Nat
deriving DecidableEq

/-- `SwapResult`: the tagged union of submission results — classic (response
plus optional deadline) or one of the two off-chain-order generations. -/
inductive SwapResult where
  | classic (response : ClassicSwapResponse) (deadline : Option Int)
  | uniswapX (response : UniswapXSwapResponse)
  | uniswapXv2 (response : UniswapXSwapResponse)
deriving DecidableEq

/-- The `type` tag of a `SwapResult`. -/
def SwapResult.fillType : SwapResult → TradeFillType
  | .classic .. => .Classic
  | .uniswapX .. => .UniswapX
  | .uniswapXv2 .. => .UniswapXv2

/-- `TransactionStatus` (the fields this core uses). -/
inductive TransactionStatus where
  | Pending
  | Success
  | Failed
deriving DecidableEq

/-- `TransactionOriginType`. -/
inductive TransactionOriginType where
  | Internal
  | External
deriving DecidableEq

/-- `QueuedOrderStatus` (the fields this core uses). -/
inductive QueuedOrderStatus where
  | Waiting
  | Submitted
  | Success
deriving DecidableEq

/-- `TradingApi.Routing` (the values this core uses). -/
inductive Routing where
  | CLASSIC
  | DUTCH_V2
  | DUTCH_LIMIT
deriving DecidableEq

/-- `TransactionType` (only `Swap` is produced here). -/
inductive TransactionType where
  | Swap
deriving DecidableEq

/-- Modelled from the spec: the SDK computation `trade.minimumAmountOut(
allowedSlippage)`, which is not part of this repository — "minimum-output
amount computed by applying the slippage tolerance downward to the expected
output" (500 under 1% slippage yields 495). -/
def minimumAmountOut (slippage : Percent) (amountOut : Nat) : Nat :=
  amountOut * (slippage.den - slippage.num) / slippage.den

/-- Modelled from the spec: the SDK computation `trade.maximumAmountIn(
allowedSlippage)`, which is not part of this repository — "maximum-input
amount computed by applying the slippage tolerance upward to the expected
input". -/
def maximumAmountIn (slippage : Percent) (amountIn : Nat) : Nat :=
  amountIn * (slippage.den + slippage.num) / slippage.den

/-- `currencyId`: the stable identifier of a currency; currencies are
modelled by their identifier strings. -/
def currencyId (currency : String) : String := currency

/-- The trade-type-tagged amount fields of the recorded swap info. -/
inductive SwapAmounts where
  | exactInput (inputCurrencyAmountRaw expectedOutputCurrencyAmountRaw
      minimumOutputCurrencyAmountRaw : Nat)
  | exactOutput (outputCurrencyAmountRaw expectedInputCurrencyAmountRaw
      maximumInputCurrencyAmountRaw : Nat)
deriving DecidableEq

/-- The `TransactionInfo` value (`swapInfo`) built by `submitSwap`. -/
structure TransactionInfo where
  type : TransactionType
  inputCurrencyId : String
  outputCurrencyId : String
  isUniswapXOrder : Bool
  amounts : SwapAmounts
deriving DecidableEq

/-- The `swapInfo` construction inside `submitSwap`. -/
def mkSwapInfo (trade : Trade) (allowedSlippage : Percent)
    (result : SwapResult) : TransactionInfo :=
  { type := .Swap
    inputCurrencyId := currencyId trade.inputAmount.currency
    outputCurrencyId := currencyId trade.outputAmount.currency
    isUniswapXOrder := result.fillType = TradeFillType.UniswapX
      ∨ result.fillType = TradeFillType.UniswapXv2
    amounts :=
      match trade.tradeType with
      | .EXACT_INPUT =>
        .exactInput trade.inputAmount.quotient trade.outputAmount.quotient
          (minimumAmountOut allowedSlippage trade.outputAmount.quotient)
      | .EXACT_OUTPUT =>
        .exactOutput trade.outputAmount.quotient trade.inputAmount.quotient
          (maximumAmountIn allowedSlippage trade.inputAmount.quotient) }

/-- `UniswapXOrderDetails<InterfaceTransactionDetails>`: the record the core
writes directly to the transaction store for limit orders. (`from` is a Lean
keyword, hence `fromAddress`.) -/
structure UniswapXOrderDetails where
  id : String
  chainId : Nat
  fromAddress : String
  status : TransactionStatus
  addedTime : Nat
  transactionOriginType : TransactionOriginType
  typeInfo : TransactionInfo
  routing : Routing
  orderHash : String
  queueStatus : QueuedOrderStatus
  encodedOrder : String
  expiry : Nat
deriving DecidableEq

/-- The `limitOrderTransaction` literal built in `submitSwap`. -/
def mkLimitOrderDetails (swapChainId : Nat) (fromAddress : String)
    (now : Nat) (swapInfo : TransactionInfo)
    (response : UniswapXSwapResponse) : UniswapXOrderDetails :=
  { id := response.orderHash
    chainId := swapChainId
    fromAddress := fromAddress
    status := .Pending
    addedTime := now
    transactionOriginType := .Internal
    typeInfo := swapInfo
    routing := .DUTCH_LIMIT
    orderHash := response.orderHash
    queueStatus := .Submitted
    encodedOrder := response.encodedOrder
    expiry := response.deadline }

/-! ### The swap orchestrator (`submitSwap`) -/

/-- The thrown precondition failures, one per check. -/
inductive SwapError where
  | missingTrade
  | walletNotConnected
  | missingSwapChainId
  | nonEVMChain
  | wrongChain
deriving DecidableEq

/-- The message of the `Error` thrown for each precondition failure. -/
def SwapError.message : SwapError → String
  | .missingTrade => "missing trade"
  | .walletNotConnected => "wallet must be connected to swap"
  | .missingSwapChainId => "missing swap chainId"
  | .nonEVMChain => "non EVM chain in legacy limits flow"
  | .wrongChain => "wallet must be connected to correct chain to swap"

/-- The chronological trace of side effects performed by one `submitSwap`
call: chain-switch attempts (`selectChain`), the submission-primitive call
(`swapCallback`), tracking-subsystem adds (`addClassicTransaction`) and
direct store writes (`dispatch(addTransaction(...))`). -/
inductive SwapEvent where
  | chainSwitch (target : Nat) (success : Bool)
  | submission (result : SwapResult)
  | addClassicTransaction (response : ClassicSwapResponse)
      (info : TransactionInfo) (deadline : Option Int)
  | addTransaction (details : UniswapXOrderDetails)
deriving DecidableEq

/-- The ambient state read by one `submitSwap` call: the closed-over hook
values plus the outcomes of the awaited collaborators (`selectChain` and the
selected submission callback). -/
structure SwapEnv where
  trade : Option Trade
  allowedSlippage : Percent
  accountIsConnected : Bool
  accountAddress : Option String
  swapChainId : Option Nat
  isEVMChain : Nat → Bool
  supportedConnectedChainId : Option Nat
  selectChainSucceeds : Bool
  swapCallbackResult : SwapResult
  now : Nat

/-- JavaScript falsiness of `account.address` (`undefined` or empty). -/
def addressMissing : Option String → Bool
  | none => true
  | some a => a.isEmpty

/-- The record-writing tail of `submitSwap`: a classic result goes to
`addClassicTransaction`; an off-chain result of a limit trade is written
directly to the store; any other off-chain result writes nothing. -/
def recordResult (trade : Trade) (swapChainId : Nat) (env : SwapEnv)
    (swapInfo : TransactionInfo) (result : SwapResult) : List SwapEvent :=
  match result with
  | .classic response deadline =>
    [.addClassicTransaction response swapInfo deadline]
  | .uniswapX response =>
    if isLimitTrade (some trade) then
      [.addTransaction (mkLimitOrderDetails swapChainId
        (env.accountAddress.getD "") env.now swapInfo response)]
    else []
  | .uniswapXv2 response =>
    if isLimitTrade (some trade) then
      [.addTransaction (mkLimitOrderDetails swapChainId
        (env.accountAddress.getD "") env.now swapInfo response)]
    else []

/-- The tail of `submitSwap` after every precondition check has passed: call
the submission primitive, build `swapInfo`, record the result, and return
the raw result. -/
def submitCore (trade : Trade) (swapChainId : Nat) (env : SwapEnv) :
    Except SwapError SwapResult × List SwapEvent :=
  let result := env.swapCallbackResult
  let swapInfo := mkSwapInfo trade env.allowedSlippage result
  (.ok result,
    .submission result :: recordResult trade swapChainId env swapInfo result)

/-- The async function returned by `useSwapCallback`, embedded as a pure
function from the ambient environment to the thrown-or-returned outcome
paired with the chronological effect trace. -/
def submitSwap (env : SwapEnv) : Except SwapError SwapResult × List SwapEvent :=
  match env.trade with
  | none => (.error .missingTrade, [])
  | some trade =>
    if !env.accountIsConnected || addressMissing env.accountAddress then
      (.error .walletNotConnected, [])
    else
      match env.swapChainId with
      | none => (.error .missingSwapChainId, [])
      | some swapChainId =>
        if !env.isEVMChain swapChainId then
          (.error .nonEVMChain, [])
        else if env.supportedConnectedChainId ≠ some swapChainId then
          if !env.selectChainSucceeds then
            (.error .wrongChain,
              [.chainSwitch swapChainId env.selectChainSucceeds])
          else
            let (outcome, events) := submitCore trade swapChainId env
            (outcome,
              .chainSwitch swapChainId env.selectChainSucceeds :: events)
        else
          submitCore trade swapChainId env

/-! ### Status lookup (`useSwapTransactionStatus`) -/

/-- A record as read back from the transaction store; its lifecycle status
is all the status hook consults. -/
structure StoredTransaction where
  status : TransactionStatus
deriving DecidableEq

/-- `useSwapTransactionStatus`. Modelled from the spec for the read path:
`useTransaction` (the transaction store's lookup, outside this file's
sources) is a map from transaction hash to stored record, and `undefined`
input yields `undefined`. -/
def useSwapTransactionStatus (store : String → Option StoredTransaction)
    (swapResult : Option SwapResult) : Option TransactionStatus :=
  let transaction :=
    match swapResult with
    | some (.classic response _) => store response.hash
    | _ => none
  match transaction with
  | none => none
  | some t => some t.status

/-! ### Precondition checks -/

/-- C1: the five precondition checks run in their fixed order, each failing
check short-circuits with its own error — distinct messages — before any
later check is consulted; a failure of checks 1–4 leaves the effect trace
empty (no chain switch, no submission call, no record write), and a failure
of check 5 leaves only the unsuccessful switch attempt (no chain switch
occurred, no submission call, no record write). -/
theorem submitSwap_preconditions (env : SwapEnv) :
    (env.trade = none →
      submitSwap env = (.error .missingTrade, []))
    ∧ (env.trade ≠ none →
      (env.accountIsConnected = false ∨ addressMissing env.accountAddress = true) →
      submitSwap env = (.error .walletNotConnected, []))
    ∧ (env.trade ≠ none → env.accountIsConnected = true →
      addressMissing env.accountAddress = false → env.swapChainId = none →
      submitSwap env = (.error .missingSwapChainId, []))
    ∧ (∀ cid, env.trade ≠ none → env.accountIsConnected = true →
      addressMissing env.accountAddress = false → env.swapChainId = some cid →
      env.isEVMChain cid = false →
      submitSwap env = (.error .nonEVMChain, []))
    ∧ (∀ cid, env.trade ≠ none → env.accountIsConnected = true →
      addressMissing env.accountAddress = false → env.swapChainId = some cid →
      env.isEVMChain cid = true → env.supportedConnectedChainId ≠ some cid →
      env.selectChainSucceeds = false →
      submitSwap env = (.error .wrongChain, [.chainSwitch cid false]))
    ∧ (([SwapError.missingTrade, .walletNotConnected, .missingSwapChainId,
        .nonEVMChain, .wrongChain].map SwapError.message).Nodup) := by
  refine ⟨?_, ?_, ?_, ?_, ?_, by decide⟩
  · intro h
    simp [submitSwap, h]
  · intro h hw
    obtain ⟨t, ht⟩ := Option.ne_none_iff_exists'.mp h
    rcases hw with hw | hw <;> simp [submitSwap, ht, hw]
  · intro h hc ha hs
    obtain ⟨t, ht⟩ := Option.ne_none_iff_exists'.mp h
    simp [submitSwap, ht, hc, ha, hs]
  · intro cid h hc ha hs he
    obtain ⟨t, ht⟩ := Option.ne_none_iff_exists'.mp h
    simp [submitSwap, ht, hc, ha, hs, he]
  · intro cid h hc ha hs he hne hsel
    obtain ⟨t, ht⟩ := Option.ne_none_iff_exists'.mp h
    simp [submitSwap, ht, hc, ha, hs, he, hne, hsel]

/-- Witness for C1: with no trade present, `submitSwap` fails with the
missing-trade error and performs no effect at all, even though every other
check would also fail in this environment. -/
theorem submitSwap_preconditions_witness :
    submitSwap
        { trade := none
          allowedSlippage := ⟨1, 100⟩
          accountIsConnected := false
          accountAddress := none
          swapChainId := none
          isEVMChain := fun _ => false
          supportedConnectedChainId := none
          selectChainSucceeds := false
          swapCallbackResult := .classic ⟨"0xhash"⟩ none
          now := 0 } = (.error .missingTrade, []) :=
  (submitSwap_preconditions _).1 rfl

/-- C2: when every earlier check passes, a mismatched connected chain causes
exactly one chain-switch attempt, which precedes the submission call; if the
switch does not yield the target chain, `submitSwap` fails with the
chain-switch error and no submission (and no record write) occurs; if the
connected chain already matches, no switch is attempted and the call
proceeds without error. -/
theorem submitSwap_chainSwitch (env : SwapEnv) (t : Trade) (cid : Nat)
    (ht : env.trade = some t) (hc : env.accountIsConnected = true)
    (ha : addressMissing env.accountAddress = false)
    (hs : env.swapChainId = some cid) (he : env.isEVMChain cid = true) :
    (env.supportedConnectedChainId ≠ some cid →
      env.selectChainSucceeds = true →
      submitSwap env = (.ok env.swapCallbackResult,
        .chainSwitch cid true :: .submission env.swapCallbackResult ::
          recordResult t cid env
            (mkSwapInfo t env.allowedSlippage env.swapCallbackResult)
            env.swapCallbackResult))
    ∧ (env.supportedConnectedChainId ≠ some cid →
      env.selectChainSucceeds = false →
      submitSwap env = (.error .wrongChain, [.chainSwitch cid false]))
    ∧ (env.supportedConnectedChainId = some cid →
      submitSwap env = (.ok env.swapCallbackResult,
        .submission env.swapCallbackResult ::
          recordResult t cid env
            (mkSwapInfo t env.allowedSlippage env.swapCallbackResult)
            env.swapCallbackResult)) := by
  refine ⟨?_, ?_, ?_⟩
  · intro hne hsel
    simp [submitSwap, ht, hc, ha, hs, he, hne, hsel, submitCore]
  · intro hne hsel
    simp [submitSwap, ht, hc, ha, hs, he, hne, hsel]
  · intro heq
    simp [submitSwap, ht, hc, ha, hs, he, heq, submitCore]

/-- Witness for C2: a wallet connected to chain 5 while the target is
chain 1, with a failing switch, yields the chain-switch error after exactly
one unsuccessful switch attempt and no submission. -/
theorem submitSwap_chainSwitch_witness :
    submitSwap
        { trade := some ⟨.classic, .EXACT_INPUT, ⟨"ETH", 1000⟩, ⟨"USDC", 500⟩, none⟩
          allowedSlippage := ⟨1, 100⟩
          accountIsConnected := true
          accountAddress := some "0xabc"
          swapChainId := some 1
          isEVMChain := fun _ => true
          supportedConnectedChainId := some 5
          selectChainSucceeds := false
          swapCallbackResult := .classic ⟨"0xhash"⟩ none
          now := 0 } = (.error .wrongChain, [.chainSwitch 1 false]) := by
  refine (submitSwap_chainSwitch _ ⟨.classic, .EXACT_INPUT, ⟨"ETH", 1000⟩,
    ⟨"USDC", 500⟩, none⟩ 1 rfl rfl ?_ rfl rfl).2.1 ?_ rfl
  · decide
  · decide

/-! ### Recording -/

/-- Is the event a direct transaction-store write
(`dispatch(addTransaction(...))`)? -/
def SwapEvent.isStoreWrite : SwapEvent → Bool
  | .addTransaction _ => true
  | _ => false

/-- Is the event a tracking-subsystem add (`addClassicTransaction`)? -/
def SwapEvent.isTrackingAdd : SwapEvent → Bool
  | .addClassicTransaction .. => true
  | _ => false

/-- Any successful `submitSwap` run produces the submission event followed by
the record events, optionally prefixed by one successful chain switch. -/
theorem submitSwap_ok_shape (env : SwapEnv) (t : Trade) (cid : Nat)
    (result : SwapResult) (events : List SwapEvent)
    (ht : env.trade = some t) (hcid : env.swapChainId = some cid)
    (h : submitSwap env = (.ok result, events)) :
    result = env.swapCallbackResult
    ∧ (events = .submission result ::
        recordResult t cid env (mkSwapInfo t env.allowedSlippage result) result
      ∨ events = .chainSwitch cid true :: .submission result ::
        recordResult t cid env (mkSwapInfo t env.allowedSlippage result) result) := by
  simp only [submitSwap, ht, hcid, submitCore] at h
  split at h
  · simp at h
  · split at h
    · simp at h
    · split at h
      · split at h
        · simp at h
        · rename_i hsel0
          have hsel : env.selectChainSucceeds = true := by simpa using hsel0
          simp only [Prod.mk.injEq, Except.ok.injEq] at h
          obtain ⟨h1, h2⟩ := h
          refine ⟨h1.symm, Or.inr ?_⟩
          rw [← h1, ← h2, hsel]
      · simp only [Prod.mk.injEq, Except.ok.injEq] at h
        obtain ⟨h1, h2⟩ := h
        exact ⟨h1.symm, Or.inl (by rw [← h1, ← h2])⟩

/-- C3: on every successful submission, an off-chain result of a limit-order
trade causes exactly one direct store write — identifier and order hash from
the result's order hash, status `Pending`, queue status `Submitted`,
internal origin, routing fixed to `DUTCH_LIMIT`, encoded order and expiry
copied from the submission result — and no tracking-subsystem add; a classic
result causes exactly one tracking-subsystem add (raw response, amount
summary, optional deadline) and no direct store write; an off-chain result
of a non-limit trade causes neither. -/
theorem submitSwap_recording (env : SwapEnv) (t : Trade) (cid : Nat)
    (result : SwapResult) (events : List SwapEvent)
    (ht : env.trade = some t) (hcid : env.swapChainId = some cid)
    (h : submitSwap env = (.ok result, events)) :
    result = env.swapCallbackResult
    ∧ (∀ response,
      (result = .uniswapX response ∨ result = .uniswapXv2 response) →
      isLimitTrade (some t) = true →
      events.filter SwapEvent.isStoreWrite =
        [.addTransaction
          { id := response.orderHash
            chainId := cid
            fromAddress := env.accountAddress.getD ""
            status := .Pending
            addedTime := env.now
            transactionOriginType := .Internal
            typeInfo := mkSwapInfo t env.allowedSlippage result
            routing := .DUTCH_LIMIT
            orderHash := response.orderHash
            queueStatus := .Submitted
            encodedOrder := response.encodedOrder
            expiry := response.deadline }]
      ∧ events.filter SwapEvent.isTrackingAdd = [])
    ∧ (∀ response deadline, result = .classic response deadline →
      events.filter SwapEvent.isTrackingAdd =
        [.addClassicTransaction response
          (mkSwapInfo t env.allowedSlippage result) deadline]
      ∧ events.filter SwapEvent.isStoreWrite = [])
    ∧ (∀ response,
      (result = .uniswapX response ∨ result = .uniswapXv2 response) →
      isLimitTrade (some t) = false →
      events.filter SwapEvent.isStoreWrite = []
      ∧ events.filter SwapEvent.isTrackingAdd = []) := by
  obtain ⟨hres, hev⟩ := submitSwap_ok_shape env t cid result events ht hcid h
  refine ⟨hres, ?_, ?_, ?_⟩
  · rintro response (hr | hr) hlim <;>
      rcases hev with hev | hev <;>
      subst hr <;>
      simp [hev, recordResult, hlim, mkLimitOrderDetails,
        SwapEvent.isStoreWrite, SwapEvent.isTrackingAdd]
  · rintro response deadline hr
    rcases hev with hev | hev <;>
      subst hr <;>
      simp [hev, recordResult,
        SwapEvent.isStoreWrite, SwapEvent.isTrackingAdd]
  · rintro response (hr | hr) hlim <;>
      rcases hev with hev | hev <;>
      subst hr <;>
      simp [hev, recordResult, hlim,
        SwapEvent.isStoreWrite, SwapEvent.isTrackingAdd]

/-- Witness for C3: a concrete successful limit-order submission writes
exactly the expected record to the store and nothing to the tracking
subsystem. -/
theorem submitSwap_recording_witness :
    submitSwap
        { trade := some ⟨.limit, .EXACT_INPUT, ⟨"ETH", 1000⟩, ⟨"USDC", 500⟩, none⟩
          allowedSlippage := ⟨1, 100⟩
          accountIsConnected := true
          accountAddress := some "0xabc"
          swapChainId := some 1
          isEVMChain := fun _ => true
          supportedConnectedChainId := some 1
          selectChainSucceeds := true
          swapCallbackResult := .uniswapX ⟨"0xorder", "0xencoded", 99⟩
          now := 7 } =
      (.ok (.uniswapX ⟨"0xorder", "0xencoded", 99⟩),
        [.submission (.uniswapX ⟨"0xorder", "0xencoded", 99⟩),
          .addTransaction
            { id := "0xorder"
              chainId := 1
              fromAddress := "0xabc"
              status := .Pending
              addedTime := 7
              transactionOriginType := .Internal
              typeInfo := mkSwapInfo
                ⟨.limit, .EXACT_INPUT, ⟨"ETH", 1000⟩, ⟨"USDC", 500⟩, none⟩
                ⟨1, 100⟩ (.uniswapX ⟨"0xorder", "0xencoded", 99⟩)
              routing := .DUTCH_LIMIT
              orderHash := "0xorder"
              queueStatus := .Submitted
              encodedOrder := "0xencoded"
              expiry := 99 }])
    ∧ [SwapEvent.submission (.uniswapX ⟨"0xorder", "0xencoded", 99⟩),
        SwapEvent.addTransaction
          { id := "0xorder"
            chainId := 1
            fromAddress := "0xabc"
            status := .Pending
            addedTime := 7
            transactionOriginType := .Internal
            typeInfo := mkSwapInfo
              ⟨.limit, .EXACT_INPUT, ⟨"ETH", 1000⟩, ⟨"USDC", 500⟩, none⟩
              ⟨1, 100⟩ (.uniswapX ⟨"0xorder", "0xencoded", 99⟩)
            routing := .DUTCH_LIMIT
            orderHash := "0xorder"
            queueStatus := .Submitted
            encodedOrder := "0xencoded"
            expiry := 99 }].filter SwapEvent.isStoreWrite =
      [SwapEvent.addTransaction
        { id := "0xorder"
          chainId := 1
          fromAddress := "0xabc"
          status := .Pending
          addedTime := 7
          transactionOriginType := .Internal
          typeInfo := mkSwapInfo
            ⟨.limit, .EXACT_INPUT, ⟨"ETH", 1000⟩, ⟨"USDC", 500⟩, none⟩
            ⟨1, 100⟩ (.uniswapX ⟨"0xorder", "0xencoded", 99⟩)
          routing := .DUTCH_LIMIT
          orderHash := "0xorder"
          queueStatus := .Submitted
          encodedOrder := "0xencoded"
          expiry := 99 }] := by
  have hrun : submitSwap
      { trade := some ⟨.limit, .EXACT_INPUT, ⟨"ETH", 1000⟩, ⟨"USDC", 500⟩, none⟩
        allowedSlippage := ⟨1, 100⟩
        accountIsConnected := true
        accountAddress := some "0xabc"
        swapChainId := some 1
        isEVMChain := fun _ => true
        supportedConnectedChainId := some 1
        selectChainSucceeds := true
        swapCallbackResult := .uniswapX ⟨"0xorder", "0xencoded", 99⟩
        now := 7 } =
      (.ok (.uniswapX ⟨"0xorder", "0xencoded", 99⟩),
        [.submission (.uniswapX ⟨"0xorder", "0xencoded", 99⟩),
          .addTransaction
            { id := "0xorder"
              chainId := 1
              fromAddress := "0xabc"
              status := .Pending
              addedTime := 7
              transactionOriginType := .Internal
              typeInfo := mkSwapInfo
                ⟨.limit, .EXACT_INPUT, ⟨"ETH", 1000⟩, ⟨"USDC", 500⟩, none⟩
                ⟨1, 100⟩ (.uniswapX ⟨"0xorder", "0xencoded", 99⟩)
              routing := .DUTCH_LIMIT
              orderHash := "0xorder"
              queueStatus := .Submitted
              encodedOrder := "0xencoded"
              expiry := 99 }]) := by
    simp [submitSwap, submitCore, recordResult, isLimitTrade,
      mkLimitOrderDetails, addressMissing]
    decide
  refine ⟨hrun, ?_⟩
  exact (submitSwap_recording _
    ⟨.limit, .EXACT_INPUT, ⟨"ETH", 1000⟩, ⟨"USDC", 500⟩, none⟩ 1 _ _
    rfl rfl hrun).2.1 ⟨"0xorder", "0xencoded", 99⟩ (Or.inl rfl) rfl |>.1

/-- C4: the recorded amount summary is type-tagged by the trade type —
`EXACT_INPUT` records the input amount, the expected output amount, and the
minimum-output amount (expected output with the slippage tolerance applied
downward: 500 under 1% gives 495); `EXACT_OUTPUT` records the output amount,
the expected input amount, and the maximum-input amount (expected input with
the slippage tolerance applied upward); the off-chain-order flag is set
exactly when the result is of either off-chain-order generation. -/
theorem mkSwapInfo_spec (trade : Trade) (slippage : Percent)
    (result : SwapResult) :
    (trade.tradeType = TradeType.EXACT_INPUT →
      (mkSwapInfo trade slippage result).amounts =
        .exactInput trade.inputAmount.quotient trade.outputAmount.quotient
          (minimumAmountOut slippage trade.outputAmount.quotient))
    ∧ (trade.tradeType = TradeType.EXACT_OUTPUT →
      (mkSwapInfo trade slippage result).amounts =
        .exactOutput trade.outputAmount.quotient trade.inputAmount.quotient
          (maximumAmountIn slippage trade.inputAmount.quotient))
    ∧ ((mkSwapInfo trade slippage result).isUniswapXOrder = true ↔
      (result.fillType = TradeFillType.UniswapX
        ∨ result.fillType = TradeFillType.UniswapXv2))
    ∧ minimumAmountOut ⟨1, 100⟩ 500 = 495 := by
  refine ⟨?_, ?_, ?_, by decide⟩
  · intro h
    simp [mkSwapInfo, h]
  · intro h
    simp [mkSwapInfo, h]
  · simp [mkSwapInfo]

/-- Witness for C4: an `EXACT_INPUT` trade with output amount 500 under 1%
slippage records the minimum-output amount 495. -/
theorem mkSwapInfo_spec_witness :
    (mkSwapInfo ⟨.classic, .EXACT_INPUT, ⟨"ETH", 1000⟩, ⟨"USDC", 500⟩, none⟩
        ⟨1, 100⟩ (.classic ⟨"0xhash"⟩ none)).amounts =
      .exactInput 1000 500 495 := by
  have h := (mkSwapInfo_spec
    ⟨.classic, .EXACT_INPUT, ⟨"ETH", 1000⟩, ⟨"USDC", 500⟩, none⟩
    ⟨1, 100⟩ (.classic ⟨"0xhash"⟩ none)).1 rfl
  rw [h]
  decide

/-- C8: status lookup returns a lifecycle status only for classic results —
for a classic result whose hash matches a stored record it returns that
record's status; for a classic result with no matching record, and for every
non-classic result (and for no result at all) regardless of store contents,
it returns `undefined`. -/
theorem useSwapTransactionStatus_spec
    (store : String → Option StoredTransaction) :
    (∀ response deadline record, store response.hash = some record →
      useSwapTransactionStatus store (some (.classic response deadline)) =
        some record.status)
    ∧ (∀ response deadline, store response.hash = none →
      useSwapTransactionStatus store (some (.classic response deadline)) =
        none)
    ∧ (∀ result : SwapResult, result.fillType ≠ TradeFillType.Classic →
      useSwapTransactionStatus store (some result) = none)
    ∧ useSwapTransactionStatus store none = none := by
  refine ⟨?_, ?_, ?_, rfl⟩
  · intro response deadline record h
    simp [useSwapTransactionStatus, h]
  · intro response deadline h
    simp [useSwapTransactionStatus, h]
  · intro result h
    cases result with
    | classic response deadline => simp [SwapResult.fillType] at h
    | uniswapX response => simp [useSwapTransactionStatus]
    | uniswapXv2 response => simp [useSwapTransactionStatus]

/-- Witness for C8: a concrete store mapping hash `0xhash` to a `Success`
record yields that status for the matching classic result, and `undefined`
for an off-chain result against the same store. -/
theorem useSwapTransactionStatus_spec_witness :
    useSwapTransactionStatus
        (fun h => if h = "0xhash" then some ⟨.Success⟩ else none)
        (some (.classic ⟨"0xhash"⟩ none)) = some TransactionStatus.Success
    ∧ useSwapTransactionStatus
        (fun h => if h = "0xhash" then some ⟨.Success⟩ else none)
        (some (.uniswapX ⟨"0xorder", "0xencoded", 99⟩)) = none :=
  ⟨(useSwapTransactionStatus_spec _).1 ⟨"0xhash"⟩ none ⟨.Success⟩ (by simp),
    (useSwapTransactionStatus_spec _).2.2.1 _ (by simp [SwapResult.fillType])⟩

/-! ### Response classification (`defaultOnFetchResponse`) -/

/-- The part of a fetch `Response` the classification hook consults. -/
structure FetchResponse where
  status : Nat
deriving DecidableEq

/-- Diagnostic severity of the logging sink. -/
inductive LogLevel where
  | warn
  | error
deriving DecidableEq

/-- One structured diagnostic: severity, message, and the structured context
(chain identifier and offending URL) passed under `extra`. -/
structure LogEvent where
  level : LogLevel
  message : String
  chainId : Nat
  url : String
deriving DecidableEq

/-- `defaultOnFetchResponse`: on a non-200 status, log a warning for testnet
chains and an error otherwise, both with the chain id and URL as context; on
a 200 status, log nothing. The logger calls are embedded as the returned
event list; the hook is a total function — it never throws and carries no
way to abort the in-flight request. `isTestnetChain` is an external utility,
passed as a parameter. -/
def defaultOnFetchResponse (isTestnetChain : Nat → Bool)
    (response : FetchResponse) (chain : ChainInfo) (url : String) :
    List LogEvent :=
  if response.status ≠ 200 then
    let message := "RPC provider returned non-200 status: "
      ++ toString response.status
    if isTestnetChain chain.id then
      [{ level := .warn, message := message, chainId := chain.id, url := url }]
    else
      [{ level := .error, message := message, chainId := chain.id, url := url }]
  else
    []

/-- C7: a non-200 response on a testnet chain emits exactly one warn-level
diagnostic; a non-200 response on a non-testnet chain emits exactly one
error-level diagnostic; both carry the chain identifier and the offending
URL; a 200 response emits nothing — and in every case the hook returns its
diagnostics normally instead of throwing or aborting (its result type has no
failure case). -/
theorem defaultOnFetchResponse_spec (isTestnetChain : Nat → Bool)
    (response : FetchResponse) (chain : ChainInfo) (url : String) :
    (response.status ≠ 200 → isTestnetChain chain.id = true →
      defaultOnFetchResponse isTestnetChain response chain url =
        [{ level := .warn
           message := "RPC provider returned non-200 status: "
             ++ toString response.status
           chainId := chain.id
           url := url }])
    ∧ (response.status ≠ 200 → isTestnetChain chain.id = false →
      defaultOnFetchResponse isTestnetChain response chain url =
        [{ level := .error
           message := "RPC provider returned non-200 status: "
             ++ toString response.status
           chainId := chain.id
           url := url }])
    ∧ (response.status = 200 →
      defaultOnFetchResponse isTestnetChain response chain url = []) := by
  refine ⟨?_, ?_, ?_⟩
  · intro hs ht
    simp [defaultOnFetchResponse, hs, ht]
  · intro hs ht
    simp [defaultOnFetchResponse, hs, ht]
  · intro hs
    simp [defaultOnFetchResponse, hs]

/-- Witness for C7: a 503 from a non-testnet chain produces exactly one
error-level diagnostic carrying the chain id and URL. -/
theorem defaultOnFetchResponse_spec_witness :
    defaultOnFetchResponse (fun _ => false) ⟨503⟩
        ⟨1, "mainnet", ⟨none, none, none, none⟩⟩ "https://rpc.example" =
      [{ level := .error
         message := "RPC provider returned non-200 status: 503"
         chainId := 1
         url := "https://rpc.example" }] := by
  have h := (defaultOnFetchResponse_spec (fun _ => false) ⟨503⟩
    ⟨1, "mainnet", ⟨none, none, none, none⟩⟩ "https://rpc.example").2.1
    (by decide) rfl
  rw [h]
  decide

/-! ### Chain client factory (`createWagmiConfig`) -/

/-- One HTTP transport of the fallback list, bound to its URL. -/
structure HttpTransport where
  url : String
deriving DecidableEq

/-- A viem client as produced by `createClient` inside `createWagmiConfig`'s
per-chain `client` closure: the chain, the `batch.multicall` flag, the
polling interval in milliseconds, and the fallback transport as its ordered
list of HTTP transports. -/
structure ViemClient where
  chain : ChainInfo
  batchMulticall : Bool
  pollingInterval : Nat
  transport : List HttpTransport

/-- The `client({ chain })` closure of `createWagmiConfig`: batched multicall
on, 12 000 ms polling, and a fallback transport with one HTTP transport per
resolved URL, in resolver order. -/
def createWagmiConfigClient (chain : ChainInfo) : ViemClient :=
  { chain := chain
    batchMulticall := true
    pollingInterval := 12000
    transport := (orderedTransportUrls chain).map (fun url => ⟨url⟩) }

/-- C9: for every chain descriptor, the factory-built client has batched-call
aggregation enabled, a polling interval of exactly 12 000 ms, and a fallback
transport whose ordered endpoints are exactly the chain's endpoint candidate
list — one HTTP transport per `orderedTransportUrls` entry, in that order. -/
theorem createWagmiConfigClient_spec (chain : ChainInfo) :
    (createWagmiConfigClient chain).batchMulticall = true
    ∧ (createWagmiConfigClient chain).pollingInterval = 12000
    ∧ (createWagmiConfigClient chain).transport =
        (orderedTransportUrls chain).map (fun url => ⟨url⟩)
    ∧ ((createWagmiConfigClient chain).transport.map HttpTransport.url) =
        orderedTransportUrls chain
    ∧ (createWagmiConfigClient chain).chain = chain := by
  refine ⟨rfl, rfl, rfl, ?_, rfl⟩
  have h : ∀ l : List String,
      (l.map (fun url => (⟨url⟩ : HttpTransport))).map HttpTransport.url = l := by
    intro l
    induction l with
    | nil => rfl
    | cons x xs ih => simp only [List.map_cons, ih]
  exact h _

/-! ### Viem client to ethers provider (`clientToProvider`) -/

/-- The viem `Chain` fields consulted by `clientToProvider`: `chain.id`,
`chain.name`, and `chain.contracts?.ensRegistry?.address`. -/
structure ViemChain where
  id : Nat
  name : String
  ensRegistryAddress : Option String
deriving DecidableEq

/-- A viem `Client` as consumed by `clientToProvider`. JavaScript object
identity — the `WeakMap` key — is modelled by an explicit `ref` tag; `chain`
and `transport` are the destructured fields, the transport being an opaque
tag. -/
structure Client where
  ref : Nat
  chain : Option ViemChain
  transport : Nat
deriving DecidableEq

/-- The ethers network descriptor built from the chain or the `chainId`
argument. -/
structure Network where
  chainId : Nat
  name : String
  ensAddress : Option String
deriving DecidableEq

/-- An ethers `Web3Provider` value, identified by the transport and network
it was constructed from. -/
structure Web3Provider where
  transport : Nat
  network : Network
deriving DecidableEq

/-- The module-level `providers` `WeakMap`, keyed by client identity. -/
def ProviderCache : Type := List (Nat × Web3Provider)

/-- `clientToProvider`: no client gives no provider; the network comes from
the client's chain, else from the `chainId` argument (with name
"Unsupported"), else there is no provider; otherwise the cached provider for
this client is returned if one exists, and a fresh provider is constructed
and cached exactly once. The `WeakMap` state is threaded explicitly. -/
def clientToProvider (cache : ProviderCache) (client : Option Client)
    (chainId : Option Nat) : Option Web3Provider × ProviderCache :=
  match client with
  | none => (none, cache)
  | some c =>
    let network : Option Network :=
      match c.chain with
      | some chain =>
        some { chainId := chain.id, name := chain.name,
               ensAddress := chain.ensRegistryAddress }
      | none =>
        match chainId with
        | some cid => some { chainId := cid, name := "Unsupported",
                             ensAddress := none }
        | none => none
    match network with
    | none => (none, cache)
    | some nw =>
      match List.lookup c.ref cache with
      | some provider => (some provider, cache)
      | none =>
        let provider : Web3Provider := { transport := c.transport,
                                         network := nw }
        (some provider, (c.ref, provider) :: cache)

/-- C10: `clientToProvider` returns no provider exactly when no client is
given or when neither the client's chain nor the `chainId` argument yields a
network; it is idempotent (re-running it on its own output cache changes
nothing); once a call has produced a provider for a client whose chain is
set, every later call for that client returns that same provider (even for a
different `chainId` argument); and each call either leaves the cache
untouched or adds exactly one entry, keyed by that client, holding the
returned provider. -/
theorem clientToProvider_spec :
    (∀ (cache : ProviderCache) (client : Option Client) (chainId : Option Nat),
      (clientToProvider cache client chainId).1 = none ↔
        (client = none ∨ ∃ c, client = some c ∧ c.chain = none ∧ chainId = none))
    ∧ (∀ (cache : ProviderCache) (client : Option Client) (chainId : Option Nat),
      clientToProvider (clientToProvider cache client chainId).2 client chainId
        = clientToProvider cache client chainId)
    ∧ (∀ (cache : ProviderCache) (c : Client) (chainId₁ chainId₂ : Option Nat),
      c.chain ≠ none →
      (clientToProvider (clientToProvider cache (some c) chainId₁).2
          (some c) chainId₂).1
        = (clientToProvider cache (some c) chainId₁).1)
    ∧ (∀ (cache : ProviderCache) (client : Option Client) (chainId : Option Nat),
      (clientToProvider cache client chainId).2 = cache
      ∨ ∃ c p, client = some c
          ∧ (clientToProvider cache client chainId).2 = (c.ref, p) :: cache
          ∧ (clientToProvider cache client chainId).1 = some p
          ∧ List.lookup c.ref cache = none) := by
  refine ⟨?_, ?_, ?_, ?_⟩
  · intro cache client chainId
    cases client with
    | none => simp [clientToProvider]
    | some c =>
      cases hch : c.chain with
      | some chain =>
        cases hl : List.lookup c.ref cache with
        | none => simp [clientToProvider, hch, hl]
        | some p => simp [clientToProvider, hch, hl]
      | none =>
        cases chainId with
        | none => simp [clientToProvider, hch]
        | some cid =>
          cases hl : List.lookup c.ref cache with
          | none => simp [clientToProvider, hch, hl]
          | some p => simp [clientToProvider, hch, hl]
  · intro cache client chainId
    cases client with
    | none => simp [clientToProvider]
    | some c =>
      cases hch : c.chain with
      | some chain =>
        cases hl : List.lookup c.ref cache with
        | some p => simp [clientToProvider, hch, hl]
        | none => simp [clientToProvider, hch, hl, List.lookup]
      | none =>
        cases chainId with
        | none => simp [clientToProvider, hch]
        | some cid =>
          cases hl : List.lookup c.ref cache with
          | some p => simp [clientToProvider, hch, hl]
          | none => simp [clientToProvider, hch, hl, List.lookup]
  · intro cache c chainId₁ chainId₂ hne
    obtain ⟨chain, hch⟩ := Option.ne_none_iff_exists'.mp hne
    cases hl : List.lookup c.ref cache with
    | some p => simp [clientToProvider, hch, hl]
    | none => simp [clientToProvider, hch, hl, List.lookup]
  · intro cache client chainId
    cases client with
    | none => exact Or.inl rfl
    | some c =>
      cases hch : c.chain with
      | some chain =>
        cases hl : List.lookup c.ref cache with
        | some p => exact Or.inl (by simp [clientToProvider, hch, hl])
        | none =>
          refine Or.inr ⟨c, ⟨c.transport,
            ⟨chain.id, chain.name, chain.ensRegistryAddress⟩⟩, rfl, ?_, ?_, hl⟩
          · simp [clientToProvider, hch, hl]
          · simp [clientToProvider, hch, hl]
      | none =>
        cases chainId with
        | none => exact Or.inl (by simp [clientToProvider, hch])
        | some cid =>
          cases hl : List.lookup c.ref cache with
          | some p => exact Or.inl (by simp [clientToProvider, hch, hl])
          | none =>
            refine Or.inr ⟨c, ⟨c.transport, ⟨cid, "Unsupported", none⟩⟩,
              rfl, ?_, ?_, hl⟩
            · simp [clientToProvider, hch, hl]
            · simp [clientToProvider, hch, hl]

/-- Witness for C10: a fixed client with a chain, exercised twice from the
empty cache with different `chainId` arguments, yields the same provider
both times. -/
theorem clientToProvider_spec_witness :
    (clientToProvider
        (clientToProvider ([] : ProviderCache)
          (some ⟨0, some ⟨1, "mainnet", none⟩, 42⟩) none).2
        (some ⟨0, some ⟨1, "mainnet", none⟩, 42⟩) (some 5)).1
      = (clientToProvider ([] : ProviderCache)
          (some ⟨0, some ⟨1, "mainnet", none⟩, 42⟩) none).1 :=
  clientToProvider_spec.2.2.1 [] ⟨0, some ⟨1, "mainnet", none⟩, 42⟩
    none (some 5) (by simp)
